import Mathlib

/-!
Shallow embedding of the ExitGuard backend (`backend/app.py`): the session
data model, the risk-scoring heuristics, session aggregation, intervention
and conversion recording, and the dashboard aggregations, together with
theorems checking the specification's claims about them.

Modelling conventions:
* Python numbers (counters, order values, confidences) are `ℚ`; Python's
  `int(x)` truncation toward zero is `pyInt`.
* A session's behavior-counter dict is a total function `BehaviorKey → ℚ`:
  `dict.get(k, 0)` is application at `k`, so keys absent from the stored
  dict read as `0`, exactly as the source reads them.
* The Redis store is an association list of `(key, session, ttl-seconds)`;
  `setex` is `storeSet`.  Raw, not-yet-validated request payloads keep
  optional fields as `Option`.
-/

namespace ExitGuard

/-- Python's `int(x)` conversion: truncation toward zero.  For a rational
in lowest terms with positive denominator this is the truncating
(T-)division of the numerator by the denominator. -/
def pyInt (q : ℚ) : ℤ :=
  q.num.tdiv q.den

/-- The fixed enumerated set of behavior-counter names accepted by the
backend (`valid_behaviors`, app.py lines 177-183). -/
inductive BehaviorKey where
  | rageClicks | deadClicks | hesitations | idleTime | scrollCount | mouseJiggles
  | cartRevisits | itemAddRemoves | scrollDirectionChanges | mouseShakeIntensity
  | priceAreaTime | modalToggle | tabSwitches | mouseExitAttempts
  | addToCartActions | checkoutAttempts
  deriving DecidableEq, Repr

/-- A session's accumulated behavior counters, as the total reading function
of the Python dict (missing keys read as `0` via `dict.get(k, 0)`). -/
abbrev Behaviors := BehaviorKey → ℚ

/-- `calculate_churn_risk` (app.py lines 241-285): count frustration
signals over five thresholds; below two signals return `min(20, n*10)`,
otherwise a weighted sum truncated by `int` and capped at 100. -/
def calculate_churn_risk (behaviors : Behaviors) : ℤ :=
  let rage_clicks := behaviors .rageClicks
  let dead_clicks := behaviors .deadClicks
  let idle_time := behaviors .idleTime
  let hesitations := behaviors .hesitations
  let mouse_jiggles := behaviors .mouseJiggles
  let frustration_signals : ℕ :=
    (if 2 ≤ rage_clicks then 1 else 0) +
    (if 2 ≤ dead_clicks then 1 else 0) +
    (if 3 ≤ hesitations then 1 else 0) +
    (if 20 ≤ idle_time then 1 else 0) +
    (if 6 ≤ mouse_jiggles then 1 else 0)
  if frustration_signals < 2 then
    min 20 (frustration_signals * 10 : ℤ)
  else
    let score : ℚ :=
      rage_clicks * 20 +
      dead_clicks * 10 +
      hesitations * 5 +
      mouse_jiggles * 2 +
      min (idle_time / 2) 15 * 2
    min 100 (pyInt score)

/-- `identify_root_cause` (app.py lines 287-310): re-checks four thresholds
(idle threshold 15, not the 20 used in scoring) and joins the matching
cause strings with `" + "`. -/
def identify_root_cause (behaviors : Behaviors) : String :=
  let rage_clicks := behaviors .rageClicks
  let dead_clicks := behaviors .deadClicks
  let idle_time := behaviors .idleTime
  let hesitations := behaviors .hesitations
  let causes : List String :=
    (if 2 ≤ rage_clicks then ["High frustration (rage clicks detected)"] else []) ++
    (if 2 ≤ dead_clicks then ["UI responsiveness issues (dead clicks)"] else []) ++
    (if 15 ≤ idle_time then ["User confusion or distraction (extended idle)"] else []) ++
    (if 3 ≤ hesitations then ["Purchase hesitation"] else [])
  if causes.isEmpty then "Normal user behavior"
  else String.intercalate " + " causes

/-- `suggest_intervention` (app.py lines 312-321): pure band mapping on the
risk score; the `root_cause` argument is accepted but unused. -/
def suggest_intervention (risk_score : ℤ) (root_cause : String) : String :=
  if risk_score < 30 then "Monitor session - no intervention needed"
  else if risk_score < 60 then "Prepare proactive outreach - user showing mild frustration"
  else "IMMEDIATE INTERVENTION - Trigger discount popup or live chat"

/-- Modelled from the spec sentence for claim C1: the five-threshold signal
count (rage-clicks ≥ 2, dead-clicks ≥ 2, hesitations ≥ 3, idle-time ≥ 20,
mouse-jiggles ≥ 6), each crossing contributing exactly 1. -/
def signal_count_spec (b : Behaviors) : ℕ :=
  (if 2 ≤ b .rageClicks then 1 else 0) +
  (if 2 ≤ b .deadClicks then 1 else 0) +
  (if 3 ≤ b .hesitations then 1 else 0) +
  (if 20 ≤ b .idleTime then 1 else 0) +
  (if 6 ≤ b .mouseJiggles then 1 else 0)

/-- Modelled from the spec sentence for claim C1: the weighted sum
`rageClicks*20 + deadClicks*10 + hesitations*5 + mouseJiggles*2 +
min(idleTime/2, 15)*2`. -/
def weighted_sum_spec (b : Behaviors) : ℚ :=
  b .rageClicks * 20 + b .deadClicks * 10 + b .hesitations * 5 +
  b .mouseJiggles * 2 + min (b .idleTime / 2) 15 * 2

/-- Modelled from the spec sentence for claim C5: the list of matching
cause strings for the four root-cause thresholds, in source order. -/
def matched_causes_spec (b : Behaviors) : List String :=
  (if 2 ≤ b .rageClicks then ["High frustration (rage clicks detected)"] else []) ++
  (if 2 ≤ b .deadClicks then ["UI responsiveness issues (dead clicks)"] else []) ++
  (if 15 ≤ b .idleTime then ["User confusion or distraction (extended idle)"] else []) ++
  (if 3 ≤ b .hesitations then ["Purchase hesitation"] else [])

/-- A behaviors map with `idleTime = 15` and every other counter `0`,
the asymmetry example of claim C5. -/
def idleFifteen : Behaviors :=
  fun k => if k = BehaviorKey.idleTime then 15 else 0

/-- One raw tracking event, carried opaquely through the backend: events
are appended to the session and never inspected. -/
structure RawEvent where
  payload : String
  deriving DecidableEq, Repr

/-- The latest mood-scores snapshot, an opaque dict overwritten wholesale
on every ingest. -/
abbrev MoodScores := List (String × ℚ)

/-- One `mood_history` entry (app.py lines 454-458). -/
structure MoodEntry where
  mood : String
  confidence : ℚ
  timestamp : ℤ
  deriving DecidableEq, Repr

/-- The Session record stored per visitor (the dict built in
`track_events`, app.py lines 411-438). -/
structure Session where
  session_id : String
  start_time : ℤ
  last_active : ℤ
  events : List RawEvent
  behaviors : Behaviors
  risk_score : ℤ
  root_cause : String
  suggested_action : String
  intervention_triggered : Bool
  intervention_type : Option String
  intervention_time : Option ℤ
  conversion_status : String
  order_value : ℚ
  converted_at : Option ℤ
  mood : String
  mood_scores : MoodScores
  mood_confidence : ℚ
  mood_history : List MoodEntry

/-- The fresh session created on the first tracking event for a new id
(app.py lines 411-438): zeroed counters, zero risk, pending conversion,
neutral mood. -/
def freshSession (session_id : String) (timestamp : ℤ) : Session where
  session_id := session_id
  start_time := timestamp
  last_active := timestamp
  events := []
  behaviors := fun _ => 0
  risk_score := 0
  root_cause := "Normal user behavior"
  suggested_action := "Monitor session"
  intervention_triggered := false
  intervention_type := none
  intervention_time := none
  conversion_status := "pending"
  order_value := 0
  converted_at := none
  mood := "neutral"
  mood_scores := []
  mood_confidence := 0
  mood_history := []

/-- A validated ingest request as `track_events` reads it after
validation (app.py lines 397-405): the behaviors delta is a partial map
over the valid keys, and the mood fields default like `data.get`. -/
structure TrackReq where
  timestamp : ℤ
  events : List RawEvent
  behaviors : BehaviorKey → Option ℚ
  mood : String := "neutral"
  moodScores : MoodScores := []
  moodConfidence : ℚ := 0

/-- The session-update core of `track_events` (app.py lines 440-472):
refresh `last_active`, extend `events`, merge each behavior delta with
`max`, append to `mood_history` when the mood changed away from neutral,
overwrite the mood snapshot, and recompute the three derived fields from
the updated counters. -/
def track_update (session : Session) (r : TrackReq) : Session :=
  let behaviors' : Behaviors := fun key =>
    match r.behaviors key with
    | some value => max (session.behaviors key) value
    | none => session.behaviors key
  let mood_history' :=
    if r.mood != "neutral" && r.mood != session.mood then
      session.mood_history ++ [⟨r.mood, r.moodConfidence, r.timestamp⟩]
    else
      session.mood_history
  let risk_score := calculate_churn_risk behaviors'
  let root_cause := identify_root_cause behaviors'
  let suggested_action := suggest_intervention risk_score root_cause
  { session with
    last_active := r.timestamp
    events := session.events ++ r.events
    behaviors := behaviors'
    mood := r.mood
    mood_scores := r.moodScores
    mood_confidence := r.moodConfidence
    mood_history := mood_history'
    risk_score := risk_score
    root_cause := root_cause
    suggested_action := suggested_action }

/-- The session mutation done by `mark_intervention` (app.py lines
580-583). -/
def mark_intervention_update (session : Session) (intervention_type : String)
    (timestamp : ℤ) : Session :=
  { session with
    intervention_triggered := true
    intervention_type := some intervention_type
    intervention_time := some timestamp }

/-- The session mutation done by `record_conversion` (app.py lines
618-626): salvage attribution from the stored risk score and the
intervention flag, then the conversion fields. -/
def record_conversion_update (session : Session) (order_value : ℚ)
    (timestamp : ℤ) : Session :=
  let is_salvaged := decide (60 ≤ session.risk_score) && session.intervention_triggered
  { session with
    conversion_status := if is_salvaged then "salvaged" else "converted"
    order_value := order_value
    converted_at := some timestamp }

/-- Membership in the character class `[a-zA-Z0-9\-_]` of the session-id
pattern (app.py line 154). -/
def isAllowedIdChar (c : Char) : Bool :=
  c.isAlpha || c.isDigit || c == '-' || c == '_'

/-- Python's `re.match(r'^[a-zA-Z0-9\-_]+$', s)` as a Boolean on the
character list of `s`.  In Python's `re`, `$` matches at the end of the
string *or just before a newline at the end of the string*, so a single
trailing `'\n'` after a non-empty run of allowed characters is accepted. -/
def pyMatchIdPattern (chars : List Char) : Bool :=
  (!chars.isEmpty && chars.all isAllowedIdChar) ||
  (chars.getLast? == some '\n' &&
    !chars.dropLast.isEmpty && chars.dropLast.all isAllowedIdChar)

/-- `validate_session_id` (app.py lines 147-156): `none` models a missing
or non-string id (both falsy/`isinstance`-rejected). -/
def validate_session_id (session_id : Option String) : Bool :=
  match session_id with
  | none => false
  | some s => !s.isEmpty && decide (s.length ≤ 100) && pyMatchIdPattern s.data

/-- One value of the incoming `behaviors` dict: a Python `int`/`float`
(Python `bool` is an `int`, so it is a `num`), or any non-numeric value. -/
inductive BVal where
  | num (q : ℚ)
  | other
  deriving DecidableEq, Repr

/-- A raw `/api/track` payload as the validator sees it: `none` marks a
field absent from the JSON body. -/
structure RawTrack where
  session_id : Option String
  behaviors : Option (List (String × BVal))

/-- The `valid_behaviors` list (app.py lines 177-183). -/
def valid_behaviors : List String :=
  ["rageClicks", "deadClicks", "hesitations", "idleTime", "scrollCount", "mouseJiggles",
   "cartRevisits", "itemAddRemoves", "scrollDirectionChanges", "mouseShakeIntensity",
   "priceAreaTime", "modalToggle", "tabSwitches", "mouseExitAttempts",
   "addToCartActions", "checkoutAttempts"]

/-- The per-item loop of `validate_behavior_data` (app.py lines 184-188):
unknown key or non-numeric/negative value fails with a message naming the
offending field. -/
def check_behavior_items : List (String × BVal) → Option String
  | [] => none
  | (key, value) :: rest =>
    if !valid_behaviors.contains key then
      some ("Unknown behavior type: " ++ key)
    else
      match value with
      | .num q => if q < 0 then some ("Invalid value for " ++ key) else check_behavior_items rest
      | .other => some ("Invalid value for " ++ key)

/-- `validate_behavior_data` (app.py lines 158-190), returning `some msg`
on the first failure in source order, `none` on success.  (The
`isinstance(behaviors, dict)` branch is unreachable in this model, which
types the present `behaviors` field as a dict.) -/
def validate_behavior_data (data : RawTrack) : Option String :=
  if data.session_id.isNone then some "Missing required field: session_id"
  else if data.behaviors.isNone then some "Missing required field: behaviors"
  else if !validate_session_id data.session_id then some "Invalid session ID format"
  else check_behavior_items (data.behaviors.getD [])

/-- The session store: an association list of key, session and the TTL
(seconds) most recently set for the key, mirroring Redis `setex`. -/
abbrev Store := List (String × Session × ℕ)

/-- `get_session_redis` (app.py lines 92-102). -/
def storeGet (store : Store) (session_id : String) : Option Session :=
  (store.find? (fun e => e.1 == session_id)).map (fun e => e.2.1)

/-- `store_session_redis` / `setex` (app.py lines 76-90): upsert with
expiry, keeping the position of an existing key. -/
def storeSet (store : Store) (session_id : String) (session : Session)
    (ttl : ℕ) : Store :=
  if store.any (fun e => e.1 == session_id) then
    store.map (fun e => if e.1 == session_id then (session_id, session, ttl) else e)
  else
    store ++ [(session_id, session, ttl)]

/-- Outcome of the `/api/convert` handler. -/
inductive ConvertResult where
  | badSessionId
  | notFound
  | ok (salvaged : Bool) (revenue_saved : ℚ) (conversion_status : String)
  deriving DecidableEq, Repr

/-- `record_conversion` (app.py lines 600-643): validate the id, require
an existing session, apply salvage attribution, persist with the extended
3600-second TTL, and report the salvage outcome. -/
def record_conversion (store : Store) (session_id : String)
    (order_value : ℚ) (timestamp : ℤ) : Store × ConvertResult :=
  if !validate_session_id (some session_id) then (store, .badSessionId)
  else
    match storeGet store session_id with
    | none => (store, .notFound)
    | some session =>
      let is_salvaged := decide (60 ≤ session.risk_score) && session.intervention_triggered
      let session' := record_conversion_update session order_value timestamp
      (storeSet store session_id session' 3600,
       .ok is_salvaged (if is_salvaged then order_value else 0) session'.conversion_status)

/-- The summary view projected per active session by `get_all_sessions`
(app.py lines 512-523); raw events are omitted. -/
structure SessionSummary where
  session_id : String
  risk_score : ℤ
  root_cause : String
  suggested_action : String
  last_active : String
  behaviors : Behaviors
  mood : String
  mood_confidence : ℚ
  mood_scores : MoodScores

/-- The liveness filter of `get_all_sessions` (app.py lines 508-511):
`(now - last_active) / 1000 < 300` with exact division. -/
def session_is_active (current_time : ℤ) (session : Session) : Bool :=
  decide ((((current_time - session.last_active : ℤ) : ℚ) / 1000) < 300)

/-- The summary projection of `get_all_sessions` (app.py lines 512-523). -/
def summarize (current_time : ℤ) (session : Session) : SessionSummary where
  session_id := session.session_id
  risk_score := session.risk_score
  root_cause := session.root_cause
  suggested_action := session.suggested_action
  last_active :=
    toString (pyInt (((current_time - session.last_active : ℤ) : ℚ) / 1000)) ++ "s ago"
  behaviors := session.behaviors
  mood := session.mood
  mood_confidence := session.mood_confidence
  mood_scores := session.mood_scores

/-- The `/api/sessions` response (app.py lines 528-532). -/
structure SessionsResp where
  sessions : List SessionSummary
  total_sessions : ℕ
  high_risk_count : ℕ

/-- Descending-by-risk comparison used to sort the dashboard listing
(`sort(key=risk_score, reverse=True)`, app.py line 526). -/
def byRiskDesc (a b : SessionSummary) : Bool :=
  decide (b.risk_score ≤ a.risk_score)

/-- `get_all_sessions` (app.py lines 494-532): retain sessions active in
the last 300 seconds, project summaries, stable-sort descending by risk
score, and count the high-risk ones.  Python's `list.sort` is stable, as
is `List.mergeSort`. -/
def get_all_sessions (current_time : ℤ) (all_sessions : List Session) : SessionsResp :=
  let active_sessions :=
    (all_sessions.filter (session_is_active current_time)).map (summarize current_time)
  let sorted := active_sessions.mergeSort byRiskDesc
  { sessions := sorted
    total_sessions := sorted.length
    high_risk_count := sorted.countP (fun s => decide (60 ≤ s.risk_score)) }

/-- The `/api/salvage-stats` metrics (app.py lines 652-695), as computed
by the handler's local variables (the HTTP response additionally rounds
them for display). -/
structure SalvageStats where
  total_salvaged : ℕ
  total_high_risk : ℕ
  total_conversions : ℕ
  salvage_rate : ℚ
  intervention_success_rate : ℚ
  revenue_saved : ℚ
  avg_salvage_value : ℚ
  total_revenue : ℚ
  salvaged_sessions : List Session

/-- `get_salvage_stats` (app.py lines 652-695): partition all stored
sessions (no recency filter) and compute the salvage metrics. -/
def get_salvage_stats (all_sessions : List Session) : SalvageStats :=
  let high_risk_sessions := all_sessions.filter (fun s => decide (60 ≤ s.risk_score))
  let salvaged_sessions := all_sessions.filter (fun s => s.conversion_status == "salvaged")
  let converted_sessions := all_sessions.filter
    (fun s => s.conversion_status == "converted" || s.conversion_status == "salvaged")
  let total_salvaged := salvaged_sessions.length
  let total_high_risk := high_risk_sessions.length
  let total_conversions := converted_sessions.length
  let salvage_rate : ℚ :=
    if 0 < total_high_risk then (total_salvaged : ℚ) / (total_high_risk : ℚ) else 0
  let revenue_saved : ℚ := (salvaged_sessions.map (fun s => s.order_value)).sum
  let avg_salvage_value : ℚ :=
    if 0 < total_salvaged then revenue_saved / (total_salvaged : ℚ) else 0
  let total_revenue : ℚ := (converted_sessions.map (fun s => s.order_value)).sum
  { total_salvaged := total_salvaged
    total_high_risk := total_high_risk
    total_conversions := total_conversions
    salvage_rate := salvage_rate
    intervention_success_rate := salvage_rate
    revenue_saved := revenue_saved
    avg_salvage_value := avg_salvage_value
    total_revenue := total_revenue
    salvaged_sessions := salvaged_sessions }

/-- One core operation applied to a single session's record, for stating
lifecycle invariants across operation sequences. -/
inductive SessionOp where
  | track (r : TrackReq)
  | intervene (intervention_type : String) (timestamp : ℤ)
  | convert (order_value : ℚ) (timestamp : ℤ)

/-- Apply one operation to a session record. -/
def applyOp (session : Session) (op : SessionOp) : Session :=
  match op with
  | .track r => track_update session r
  | .intervene ty t => mark_intervention_update session ty t
  | .convert v t => record_conversion_update session v t

/-- A delta touching a single behavior key. -/
def singleDelta (k : BehaviorKey) (q : ℚ) : BehaviorKey → Option ℚ :=
  fun key => if key = k then some q else none

/-- An ingest request carrying only a mood signal. -/
def moodReq (mood : String) : TrackReq where
  timestamp := 0
  events := []
  behaviors := fun _ => none
  mood := mood

/-! ## Theorems for the specification claims -/

lemma pyInt_nonneg {q : ℚ} (h : 0 ≤ q) : 0 ≤ pyInt q := by
  unfold pyInt
  exact Int.tdiv_nonneg (Rat.num_nonneg.mpr h) (Int.ofNat_nonneg q.den)

lemma weighted_sum_spec_nonneg {b : Behaviors} (h : ∀ k, 0 ≤ b k) :
    0 ≤ weighted_sum_spec b := by
  unfold weighted_sum_spec
  have h1 := h .rageClicks
  have h2 := h .deadClicks
  have h3 := h .hesitations
  have h4 := h .idleTime
  have h5 := h .mouseJiggles
  have hmin : 0 ≤ min (b .idleTime / 2) 15 :=
    le_min (by positivity) (by norm_num)
  positivity

/-- A behaviors map hitting the rage-click threshold only, used as a
concrete nonnegative input for claim C1's witness. -/
def rageOnly : Behaviors :=
  fun k => if k = BehaviorKey.rageClicks then 3 else 0

/-- C1: on nonnegative counters, `calculate_churn_risk` counts the five
frustration-signal thresholds, returns `min(20, n*10)` below two signals
and otherwise the weighted sum clamped to `[0,100]` and truncated to an
integer; the result is an integer in `[0,100]` and depends only on the
five scored counters, so `scrollCount` and the ten mood-proxy counters
never affect it. -/
theorem churn_risk_spec (b : Behaviors) (h : ∀ k, 0 ≤ b k) :
    (calculate_churn_risk b =
      if signal_count_spec b < 2 then min 20 (signal_count_spec b * 10 : ℤ)
      else min 100 (max 0 (pyInt (weighted_sum_spec b)))) ∧
    0 ≤ calculate_churn_risk b ∧ calculate_churn_risk b ≤ 100 ∧
    ∀ b' : Behaviors,
      b' .rageClicks = b .rageClicks → b' .deadClicks = b .deadClicks →
      b' .hesitations = b .hesitations → b' .idleTime = b .idleTime →
      b' .mouseJiggles = b .mouseJiggles →
      calculate_churn_risk b' = calculate_churn_risk b := by
  have hsig : signal_count_spec b =
      (if 2 ≤ b .rageClicks then 1 else 0) +
      (if 2 ≤ b .deadClicks then 1 else 0) +
      (if 3 ≤ b .hesitations then 1 else 0) +
      (if 20 ≤ b .idleTime then 1 else 0) +
      (if 6 ≤ b .mouseJiggles then 1 else 0) := rfl
  have hws : weighted_sum_spec b =
      b .rageClicks * 20 + b .deadClicks * 10 + b .hesitations * 5 +
      b .mouseJiggles * 2 + min (b .idleTime / 2) 15 * 2 := rfl
  have hw : 0 ≤ pyInt (weighted_sum_spec b) :=
    pyInt_nonneg (weighted_sum_spec_nonneg h)
  refine ⟨?_, ?_, ?_, ?_⟩
  · simp only [calculate_churn_risk]
    rw [← hsig, ← hws]
    split
    · rfl
    · rw [max_eq_right hw]
  · simp only [calculate_churn_risk]
    rw [← hsig, ← hws]
    split
    · exact le_min (by norm_num) (by positivity)
    · exact le_min (by norm_num) hw
  · simp only [calculate_churn_risk]
    rw [← hsig, ← hws]
    split
    · exact (min_le_left _ _).trans (by norm_num)
    · exact min_le_left _ _
  · intro b' h1 h2 h3 h4 h5
    simp only [calculate_churn_risk]
    rw [h1, h2, h3, h4, h5]

/-- Witness for C1 at a concrete nonnegative counter map (a lone
rage-click burst of 3 scores 10, not a large weighted value). -/
theorem churn_risk_spec_witness :
    0 ≤ calculate_churn_risk rageOnly ∧ calculate_churn_risk rageOnly ≤ 100 ∧
    calculate_churn_risk rageOnly = 10 := by
  have h : ∀ k, 0 ≤ rageOnly k := by
    intro k
    cases k <;> decide
  refine ⟨(churn_risk_spec rageOnly h).2.1, (churn_risk_spec rageOnly h).2.2.1, ?_⟩
  with_unfolding_all rfl

/-- C5: `identify_root_cause` checks exactly the four thresholds
rage-clicks ≥ 2, dead-clicks ≥ 2, idle-time ≥ 15, hesitations ≥ 3, joins
the matching cause strings with `" + "`, and answers "Normal user
behavior" exactly when none match; since its idle threshold is 15 (not
the 20 used in scoring) and it is not gated by the two-signal minimum,
some behaviors map (idleTime = 15, all else 0) gets a non-"Normal" cause
while `calculate_churn_risk` stays at a capped low score ≤ 20. -/
theorem root_cause_spec (b : Behaviors) :
    (identify_root_cause b =
      if matched_causes_spec b = [] then "Normal user behavior"
      else String.intercalate " + " (matched_causes_spec b)) ∧
    (identify_root_cause b = "Normal user behavior" ↔
      ¬ (2 ≤ b .rageClicks ∨ 2 ≤ b .deadClicks ∨ 15 ≤ b .idleTime ∨ 3 ≤ b .hesitations)) ∧
    identify_root_cause idleFifteen ≠ "Normal user behavior" ∧
    calculate_churn_risk idleFifteen ≤ 20 := by
  refine ⟨?_, ?_, ?_, ?_⟩
  · by_cases h1 : 2 ≤ b .rageClicks <;> by_cases h2 : 2 ≤ b .deadClicks <;>
      by_cases h3 : 15 ≤ b .idleTime <;> by_cases h4 : 3 ≤ b .hesitations <;>
      simp [identify_root_cause, matched_causes_spec, h1, h2, h3, h4]
  · by_cases h1 : 2 ≤ b .rageClicks <;> by_cases h2 : 2 ≤ b .deadClicks <;>
      by_cases h3 : 15 ≤ b .idleTime <;> by_cases h4 : 3 ≤ b .hesitations <;>
      simp [identify_root_cause, h1, h2, h3, h4, String.intercalate] <;> decide
  · with_unfolding_all decide
  · with_unfolding_all decide

lemma track_update_behaviors (session : Session) (r : TrackReq) (k : BehaviorKey) :
    (track_update session r).behaviors k =
      match r.behaviors k with
      | some v => max (session.behaviors k) v
      | none => session.behaviors k := rfl

lemma le_track_update (session : Session) (r : TrackReq) (k : BehaviorKey) :
    session.behaviors k ≤ (track_update session r).behaviors k := by
  rw [track_update_behaviors]
  cases r.behaviors k with
  | none => exact le_refl _
  | some v => exact le_max_left _ _

/-- An ingest request whose behaviors delta touches a single key. -/
def singleDeltaReq (k : BehaviorKey) (q : ℚ) : TrackReq where
  timestamp := 0
  events := []
  behaviors := singleDelta k q

/-- C2: each ingest merges every incoming behavior delta with
`stored = max(stored, incoming)`, so stored counters never decrease
across any sequence of ingest calls, and applying two deltas to the same
key leaves the max of the stored value and both deltas — for a smaller
second delta, the larger of the two, never their sum and never the later
value. -/
theorem behaviors_high_water_mark (session : Session) (r : TrackReq) :
    (∀ k, (track_update session r).behaviors k =
      (r.behaviors k).elim (session.behaviors k) (fun v => max (session.behaviors k) v)) ∧
    (∀ k, session.behaviors k ≤ (track_update session r).behaviors k) ∧
    (∀ (rs : List TrackReq) (k : BehaviorKey),
      session.behaviors k ≤ (rs.foldl track_update session).behaviors k) ∧
    (∀ (k : BehaviorKey) (q₁ q₂ : ℚ), q₂ ≤ q₁ →
      (track_update (track_update session (singleDeltaReq k q₁)) (singleDeltaReq k q₂)).behaviors k =
        max (session.behaviors k) q₁) := by
  have hfold : ∀ (rs : List TrackReq) (s : Session) (k : BehaviorKey),
      s.behaviors k ≤ (rs.foldl track_update s).behaviors k := by
    intro rs
    induction rs with
    | nil => intro s k; exact le_refl _
    | cons r rs ih =>
      intro s k
      exact (le_track_update s r k).trans (ih (track_update s r) k)
  refine ⟨?_, le_track_update session r, fun rs k => hfold rs session k, ?_⟩
  · intro k
    rw [track_update_behaviors]
    cases r.behaviors k <;> rfl
  · intro k q₁ q₂ hle
    rw [track_update_behaviors, track_update_behaviors]
    simp [singleDeltaReq, singleDelta, max_assoc, max_eq_left hle]

/-- Witness for C2: on a fresh session, a rage-click delta of 5 followed
by a delta of 3 stores 5 — the larger value, not the sum 8 and not the
later value 3. -/
theorem behaviors_high_water_mark_witness :
    (track_update (track_update (freshSession "visitor-1" 0) (singleDeltaReq .rageClicks 5))
      (singleDeltaReq .rageClicks 3)).behaviors .rageClicks = 5 ∧
    (5 : ℚ) ≠ 5 + 3 ∧ (5 : ℚ) ≠ 3 := by
  have h := (behaviors_high_water_mark (freshSession "visitor-1" 0)
    (singleDeltaReq .rageClicks 5)).2.2.2 .rageClicks 5 3 (by norm_num)
  refine ⟨h.trans ?_, by norm_num, by norm_num⟩
  show max 0 5 = (5 : ℚ)
  norm_num

/-- C6: on every ingest, a `{mood, confidence, timestamp}` entry is
appended to `mood_history` exactly when the incoming mood is not
"neutral" and differs from the session's mood before the update; the
`mood`, `mood_scores` and `mood_confidence` fields are then overwritten
unconditionally; ingesting moods neutral, happy, happy, frustrated into
a fresh session appends exactly 2 entries. -/
theorem mood_history_spec (session : Session) (r : TrackReq) :
    ((track_update session r).mood_history =
      if r.mood != "neutral" && r.mood != session.mood then
        session.mood_history ++ [⟨r.mood, r.moodConfidence, r.timestamp⟩]
      else session.mood_history) ∧
    (track_update session r).mood = r.mood ∧
    (track_update session r).mood_scores = r.moodScores ∧
    (track_update session r).mood_confidence = r.moodConfidence ∧
    (List.foldl track_update (freshSession "visitor-2" 0)
      [moodReq "neutral", moodReq "happy", moodReq "happy", moodReq "frustrated"]
      ).mood_history.length = 2 :=
  ⟨rfl, rfl, rfl, rfl, by with_unfolding_all rfl⟩

/-- C10: `mark_intervention` changes only the three intervention fields
and `record_conversion` changes only the three conversion fields; every
other session field — behaviors, events, risk score, root cause,
suggested action, the mood fields and the timestamps — is untouched, so
neither operation recomputes the risk score. -/
theorem intervention_conversion_frame (session : Session) (ty : String)
    (t : ℤ) (v : ℚ) (u : ℤ) :
    ((mark_intervention_update session ty t).session_id = session.session_id ∧
     (mark_intervention_update session ty t).start_time = session.start_time ∧
     (mark_intervention_update session ty t).last_active = session.last_active ∧
     (mark_intervention_update session ty t).events = session.events ∧
     (mark_intervention_update session ty t).behaviors = session.behaviors ∧
     (mark_intervention_update session ty t).risk_score = session.risk_score ∧
     (mark_intervention_update session ty t).root_cause = session.root_cause ∧
     (mark_intervention_update session ty t).suggested_action = session.suggested_action ∧
     (mark_intervention_update session ty t).conversion_status = session.conversion_status ∧
     (mark_intervention_update session ty t).order_value = session.order_value ∧
     (mark_intervention_update session ty t).converted_at = session.converted_at ∧
     (mark_intervention_update session ty t).mood = session.mood ∧
     (mark_intervention_update session ty t).mood_scores = session.mood_scores ∧
     (mark_intervention_update session ty t).mood_confidence = session.mood_confidence ∧
     (mark_intervention_update session ty t).mood_history = session.mood_history) ∧
    ((record_conversion_update session v u).session_id = session.session_id ∧
     (record_conversion_update session v u).start_time = session.start_time ∧
     (record_conversion_update session v u).last_active = session.last_active ∧
     (record_conversion_update session v u).events = session.events ∧
     (record_conversion_update session v u).behaviors = session.behaviors ∧
     (record_conversion_update session v u).risk_score = session.risk_score ∧
     (record_conversion_update session v u).root_cause = session.root_cause ∧
     (record_conversion_update session v u).suggested_action = session.suggested_action ∧
     (record_conversion_update session v u).intervention_triggered = session.intervention_triggered ∧
     (record_conversion_update session v u).intervention_type = session.intervention_type ∧
     (record_conversion_update session v u).intervention_time = session.intervention_time ∧
     (record_conversion_update session v u).mood = session.mood ∧
     (record_conversion_update session v u).mood_scores = session.mood_scores ∧
     (record_conversion_update session v u).mood_confidence = session.mood_confidence ∧
     (record_conversion_update session v u).mood_history = session.mood_history) :=
  ⟨⟨rfl, rfl, rfl, rfl, rfl, rfl, rfl, rfl, rfl, rfl, rfl, rfl, rfl, rfl, rfl⟩,
   ⟨rfl, rfl, rfl, rfl, rfl, rfl, rfl, rfl, rfl, rfl, rfl, rfl, rfl, rfl, rfl⟩⟩

/-- An ingest delta with two rage clicks and two dead clicks: two signals
fire and the weighted score is exactly 60 (high risk). -/
def cexReq : TrackReq where
  timestamp := 0
  events := []
  behaviors := fun k =>
    if k = BehaviorKey.rageClicks then some 2
    else if k = BehaviorKey.deadClicks then some 2
    else none

/-- A session that converted at high risk without an intervention: its
`conversion_status` is "converted". -/
def cexConverted : Session :=
  applyOp (track_update (freshSession "visitor-3" 0) cexReq) (.convert 50 10)

/-- C4 counterexample: a session whose `conversion_status` is already
"converted" has it changed to "salvaged" by a later `mark_intervention`
followed by a second `record_conversion`, so the status is **not** set
exactly once and can change after leaving pending. -/
theorem conversion_status_changed_again_cex :
    cexConverted.conversion_status = "converted" ∧
    (List.foldl applyOp cexConverted
      [SessionOp.intervene "discount_popup" 20, SessionOp.convert 50 30]).conversion_status
      = "salvaged" ∧
    "converted" ≠ "salvaged" :=
  ⟨by with_unfolding_all rfl, by with_unfolding_all rfl, by decide⟩

lemma record_conversion_update_status (s : Session) (v : ℚ) (t : ℤ) :
    (record_conversion_update s v t).conversion_status = "converted" ∨
    (record_conversion_update s v t).conversion_status = "salvaged" := by
  have hs : (record_conversion_update s v t).conversion_status =
      if decide (60 ≤ s.risk_score) && s.intervention_triggered
      then "salvaged" else "converted" := rfl
  rw [hs]
  split
  · exact Or.inr rfl
  · exact Or.inl rfl

lemma applyOp_status_nonpending (s : Session) (op : SessionOp)
    (h : s.conversion_status = "converted" ∨ s.conversion_status = "salvaged") :
    (applyOp s op).conversion_status = "converted" ∨
    (applyOp s op).conversion_status = "salvaged" := by
  cases op with
  | track r => exact h
  | intervene ty t => exact h
  | convert v t => exact record_conversion_update_status s v t

/-- C4 (amended): `conversion_status` never returns to pending once it
has left it — ingest and `mark_intervention` never change it, and
`record_conversion` always sets it to "converted" or "salvaged", so any
operation sequence applied to a session already converted-or-salvaged
leaves it converted-or-salvaged.  (A repeated `record_conversion` may
however switch it between "converted" and "salvaged", as the
counterexample shows.) -/
theorem conversion_status_no_revert (session : Session) (ops : List SessionOp)
    (h : session.conversion_status = "converted" ∨ session.conversion_status = "salvaged") :
    ((ops.foldl applyOp session).conversion_status = "converted" ∨
     (ops.foldl applyOp session).conversion_status = "salvaged") ∧
    (∀ (s : Session) (r : TrackReq),
      (track_update s r).conversion_status = s.conversion_status) ∧
    (∀ (s : Session) (ty : String) (t : ℤ),
      (mark_intervention_update s ty t).conversion_status = s.conversion_status) ∧
    (∀ (s : Session) (v : ℚ) (t : ℤ),
      (record_conversion_update s v t).conversion_status = "converted" ∨
      (record_conversion_update s v t).conversion_status = "salvaged") := by
  refine ⟨?_, fun s r => rfl, fun s ty t => rfl,
    fun s v t => record_conversion_update_status s v t⟩
  induction ops generalizing session with
  | nil => exact h
  | cons op ops ih => exact ih (applyOp session op) (applyOp_status_nonpending session op h)

/-- Witness for C4's amended invariant: applying an intervention and a
second conversion to a converted session leaves it converted-or-salvaged
(never pending again). -/
theorem conversion_status_no_revert_witness :
    (List.foldl applyOp cexConverted
      [SessionOp.intervene "discount_popup" 20, SessionOp.convert 50 30]).conversion_status
      = "converted" ∨
    (List.foldl applyOp cexConverted
      [SessionOp.intervene "discount_popup" 20, SessionOp.convert 50 30]).conversion_status
      = "salvaged" :=
  (conversion_status_no_revert cexConverted
    [SessionOp.intervene "discount_popup" 20, SessionOp.convert 50 30]
    (Or.inl (by with_unfolding_all rfl))).1

/-- A stored high-risk session that already received an intervention. -/
def demoSession : Session :=
  { freshSession "s1" 0 with risk_score := 75, intervention_triggered := true }

/-- A store holding `demoSession` under key "s1" with the tracking TTL. -/
def demoStore : Store := [("s1", demoSession, 300)]

/-- C3: for an existing session, `record_conversion` computes
`is_salvaged = (stored risk_score ≥ 60) ∧ intervention_triggered`, sets
`conversion_status` to "salvaged" or "converted" accordingly, records the
order value and conversion time, persists with the extended 3600-second
TTL, and returns the salvage flag, `revenue_saved = order_value` when
salvaged (else 0) and the new status. -/
theorem record_conversion_spec (store : Store) (session_id : String)
    (order_value : ℚ) (timestamp : ℤ) (session : Session)
    (hid : validate_session_id (some session_id) = true)
    (hget : storeGet store session_id = some session) :
    record_conversion store session_id order_value timestamp =
      (storeSet store session_id
        (record_conversion_update session order_value timestamp) 3600,
       ConvertResult.ok
         (decide (60 ≤ session.risk_score) && session.intervention_triggered)
         (if decide (60 ≤ session.risk_score) && session.intervention_triggered
          then order_value else 0)
         (if decide (60 ≤ session.risk_score) && session.intervention_triggered
          then "salvaged" else "converted")) ∧
    (record_conversion_update session order_value timestamp).conversion_status =
      (if decide (60 ≤ session.risk_score) && session.intervention_triggered
       then "salvaged" else "converted") ∧
    (record_conversion_update session order_value timestamp).order_value = order_value ∧
    (record_conversion_update session order_value timestamp).converted_at = some timestamp := by
  refine ⟨?_, rfl, rfl, rfl⟩
  unfold record_conversion
  rw [hid, hget]
  rfl

/-- Witness for C3: converting the stored high-risk, intervened session
is reported as salvaged with the full order value saved. -/
theorem record_conversion_spec_witness :
    (record_conversion demoStore "s1" 99 5).2 = ConvertResult.ok true 99 "salvaged" := by
  have h := record_conversion_spec demoStore "s1" 99 5 demoSession
    (by with_unfolding_all rfl) (by with_unfolding_all rfl)
  rw [h.1]
  with_unfolding_all rfl

/-- C7 (code-bug evidence): the session id "abc\n" contains a character
outside `[a-zA-Z0-9_-]`, yet `validate_session_id` accepts it because
Python's `re` lets `$` match just before a trailing newline, so
`validate_behavior_data` passes a payload carrying this id instead of
failing with a validation error naming `session_id` — contradicting the
source's own comment "Only allow alphanumeric, hyphens, and underscores". -/
theorem session_id_trailing_newline_accepted :
    ("abc\n".data.all isAllowedIdChar = false) ∧
    validate_session_id (some "abc\n") = true ∧
    validate_behavior_data { session_id := some "abc\n", behaviors := some [] } = none :=
  ⟨by decide, by decide, by decide⟩

lemma byRiskDesc_trans (a b c : SessionSummary) :
    byRiskDesc a b → byRiskDesc b c → byRiskDesc a c := by
  simp only [byRiskDesc, decide_eq_true_eq]
  exact fun h1 h2 => h2.trans h1

lemma byRiskDesc_total (a b : SessionSummary) : byRiskDesc a b || byRiskDesc b a := by
  simp only [byRiskDesc, Bool.or_eq_true, decide_eq_true_eq]
  exact le_total b.risk_score a.risk_score

lemma filter_risk_mergeSort (r : ℤ) (l : List SessionSummary) :
    (l.mergeSort byRiskDesc).filter (fun s => s.risk_score == r) =
      l.filter (fun s => s.risk_score == r) := by
  have hpair : (l.filter (fun s => s.risk_score == r)).Pairwise
      (fun a b => byRiskDesc a b) := by
    refine List.pairwise_of_forall_mem_list ?_
    intro a ha b hb
    have ha' : a.risk_score = r := by simpa using (List.mem_filter.mp ha).2
    have hb' : b.risk_score = r := by simpa using (List.mem_filter.mp hb).2
    simp [byRiskDesc, ha', hb']
  have h1 : List.Sublist (l.filter (fun s => s.risk_score == r)) (l.mergeSort byRiskDesc) :=
    List.sublist_mergeSort byRiskDesc_trans byRiskDesc_total hpair (List.filter_sublist l)
  have h2 := h1.filter (fun s => s.risk_score == r)
  rw [List.filter_filter] at h2
  simp only [Bool.and_self] at h2
  have hperm : List.Perm ((l.mergeSort byRiskDesc).filter (fun s => s.risk_score == r))
      (l.filter (fun s => s.risk_score == r)) :=
    (List.mergeSort_perm l byRiskDesc).filter _
  exact (h2.eq_of_length hperm.length_eq.symm).symm

/-- C8: the active-sessions listing retains exactly the stored sessions
with `(now - last_active)/1000 < 300` (a session 301 seconds old is
excluded, one 299 seconds old is included), projects summaries that omit
the raw events, sorts them descending by risk score with a stable
tie-break preserving source order, and reports `high_risk_count` as the
number of retained sessions with risk score ≥ 60. -/
theorem active_sessions_spec (current_time : ℤ) (all_sessions : List Session) :
    ((get_all_sessions current_time all_sessions).sessions).Perm
      ((all_sessions.filter (session_is_active current_time)).map (summarize current_time)) ∧
    ((get_all_sessions current_time all_sessions).sessions).Pairwise
      (fun a b => b.risk_score ≤ a.risk_score) ∧
    (∀ r : ℤ, (get_all_sessions current_time all_sessions).sessions.filter
        (fun s => s.risk_score == r) =
      ((all_sessions.filter (session_is_active current_time)).map
        (summarize current_time)).filter (fun s => s.risk_score == r)) ∧
    (get_all_sessions current_time all_sessions).high_risk_count =
      (all_sessions.filter (session_is_active current_time)).countP
        (fun s => decide (60 ≤ s.risk_score)) ∧
    session_is_active current_time
      { freshSession "visitor-4" 0 with last_active := current_time - 301000 } = false ∧
    session_is_active current_time
      { freshSession "visitor-4" 0 with last_active := current_time - 299000 } = true ∧
    (∀ (session : Session) (events : List RawEvent),
      summarize current_time { session with events := events } =
        summarize current_time session) := by
  refine ⟨?_, ?_, ?_, ?_, ?_, ?_, fun session events => rfl⟩
  · exact List.mergeSort_perm _ byRiskDesc
  · have h := List.sorted_mergeSort byRiskDesc_trans byRiskDesc_total
      ((all_sessions.filter (session_is_active current_time)).map (summarize current_time))
    exact h.imp (fun hab => by simpa [byRiskDesc] using hab)
  · intro r
    exact filter_risk_mergeSort r _
  · show (List.mergeSort _ byRiskDesc).countP _ = _
    rw [(List.mergeSort_perm _ byRiskDesc).countP_eq, List.countP_map]
    rfl
  · have h : (current_time - (current_time - 301000) : ℤ) = 301000 := by ring
    simp only [session_is_active, h]
    norm_num
  · have h : (current_time - (current_time - 299000) : ℤ) = 299000 := by ring
    simp only [session_is_active, h]
    norm_num

/-- C9: the salvage statistics satisfy `salvage_rate = salvaged count /
high-risk count` (0 when there are zero high-risk sessions, so no
division by zero), `revenue_saved = sum of order values over salvaged
sessions`, `avg_salvage_value = revenue_saved / salvaged count` (0 when
none), `total_revenue = sum over converted-or-salvaged sessions`, and no
recency filter is applied: changing every session's `last_active`
arbitrarily leaves every metric unchanged. -/
theorem salvage_stats_spec (all_sessions : List Session) :
    (get_salvage_stats all_sessions).salvage_rate =
      (if (get_salvage_stats all_sessions).total_high_risk = 0 then 0
       else ((get_salvage_stats all_sessions).total_salvaged : ℚ) /
         ((get_salvage_stats all_sessions).total_high_risk : ℚ)) ∧
    (get_salvage_stats all_sessions).total_high_risk =
      all_sessions.countP (fun s => decide (60 ≤ s.risk_score)) ∧
    (get_salvage_stats all_sessions).total_salvaged =
      all_sessions.countP (fun s => s.conversion_status == "salvaged") ∧
    (get_salvage_stats all_sessions).revenue_saved =
      ((all_sessions.filter (fun s => s.conversion_status == "salvaged")).map
        (fun s => s.order_value)).sum ∧
    (get_salvage_stats all_sessions).avg_salvage_value =
      (if (get_salvage_stats all_sessions).total_salvaged = 0 then 0
       else (get_salvage_stats all_sessions).revenue_saved /
         ((get_salvage_stats all_sessions).total_salvaged : ℚ)) ∧
    (get_salvage_stats all_sessions).total_revenue =
      ((all_sessions.filter (fun s => s.conversion_status == "converted" ||
          s.conversion_status == "salvaged")).map (fun s => s.order_value)).sum ∧
    (get_salvage_stats all_sessions).intervention_success_rate =
      (get_salvage_stats all_sessions).salvage_rate ∧
    (∀ f : Session → ℤ,
      let moved := all_sessions.map (fun s => { s with last_active := f s })
      (get_salvage_stats moved).salvage_rate = (get_salvage_stats all_sessions).salvage_rate ∧
      (get_salvage_stats moved).revenue_saved = (get_salvage_stats all_sessions).revenue_saved ∧
      (get_salvage_stats moved).avg_salvage_value =
        (get_salvage_stats all_sessions).avg_salvage_value ∧
      (get_salvage_stats moved).total_revenue = (get_salvage_stats all_sessions).total_revenue ∧
      (get_salvage_stats moved).total_high_risk = (get_salvage_stats all_sessions).total_high_risk ∧
      (get_salvage_stats moved).total_salvaged = (get_salvage_stats all_sessions).total_salvaged ∧
      (get_salvage_stats moved).total_conversions =
        (get_salvage_stats all_sessions).total_conversions) := by
  have hzero : ∀ (n : ℕ) (x : ℚ), (if 0 < n then x else 0) = (if n = 0 then 0 else x) := by
    intro n x
    rcases Nat.eq_zero_or_pos n with h | h
    · simp [h]
    · simp [h, Nat.pos_iff_ne_zero.mp h]
  refine ⟨hzero _ _, (List.countP_eq_length_filter _ _).symm,
    (List.countP_eq_length_filter _ _).symm, rfl, hzero _ _, rfl, rfl, ?_⟩
  intro f
  simp only [get_salvage_stats, List.filter_map, List.length_map, List.map_map]
  exact ⟨rfl, rfl, rfl, rfl, rfl, rfl, rfl⟩

end ExitGuard
